import Mathlib

/-!
Verification of the EAPCET college predictor core logic.

Shallow embedding of `suitability.py` (suitability scoring and risk
classification) and `college_predictor.py` (recommendation filtering and
aspiration lookup).  A pandas DataFrame of admission records is modelled
as a `List Row`; every filter, map and (stable) sort of the Python code
is mirrored on lists.  Machine floats are modelled by `ℚ`; Python's
`round(x, 2)` is modelled by rounding `x * 100` to the nearest integer.
-/

/-- Rounding a rational to 2 decimal places, modelling `round(x, 2)`. -/
def roundTo2 (x : ℚ) : ℚ := (round (x * 100) : ℤ) / 100

/-- Default `max_gap` parameter of `calculate_suitability` (never overridden). -/
def max_gap : ℚ := 60000

/-- Embedding of `suitability.py`, `calculate_suitability(user_rank, cutoff_rank,
max_gap=60000)`: gap below zero yields the sentinel `0.0`; otherwise a linear
score from the capped gap ratio, clamped to `[5, 95]` and rounded to
2 decimals. -/
def calculate_suitability (user_rank cutoff_rank : ℤ) : ℚ :=
  let rank_gap : ℤ := cutoff_rank - user_rank
  if rank_gap < 0 then 0
  else
    let gapFrac : ℚ := min ((rank_gap : ℚ) / max_gap) 1
    let suitability : ℚ := 85 * (1 - gapFrac) + 15
    roundTo2 (min (max suitability 5) 95)

/-- Embedding of `suitability.py`, `classify_risk(rank_gap)`. -/
def classify_risk (rank_gap : ℤ) : String :=
  if rank_gap ≤ 2000 then "🎯 Ambitious"
  else if rank_gap ≤ 10000 then "⚖️ Moderate"
  else "✅ Safe"

/-- A DataFrame row of the historical cutoff table; the columns are the
ones `college_predictor.py` reads: `NAME OF THE INSTITUTION`,
`branch_code`, `DIST`, `A_REG`, `category`, `gender`, `cutoff_rank`. -/
structure Row where
  institution : String
  branch_code : String
  DIST : String
  A_REG : String
  category : String
  gender : String
  cutoff_rank : ℤ
deriving DecidableEq

/-- A row of the DataFrame returned by `recommend_colleges`: the original
row together with the added columns `rank_gap`, `Suitability %`
(`suitability`) and `Chance` (`chance`). -/
structure RecRow where
  row : Row
  rank_gap : ℤ
  suitability : ℚ
  chance : String
deriving DecidableEq

/-- The ordering used by `sort_values(by=["Suitability %"], ascending=False)`:
`a` precedes `b` when `a`'s suitability is at least `b`'s. -/
def suitGE (a b : RecRow) : Prop := b.suitability ≤ a.suitability

instance : DecidableRel suitGE := fun a b =>
  inferInstanceAs (Decidable (b.suitability ≤ a.suitability))

instance : IsTotal RecRow suitGE :=
  ⟨fun a b => le_total b.suitability a.suitability⟩

instance : IsTrans RecRow suitGE :=
  ⟨fun _ _ _ h1 h2 => le_trans h2 h1⟩

/-- The successive `eligible = eligible[...]` filters of
`recommend_colleges` (lines 21-33): category and gender match, the cutoff
clears the user's rank, then the optional region and district filters. -/
def eligibleRows (df : List Row) (user_rank : ℤ)
    (user_category user_gender user_region preferred_district : String) :
    List Row :=
  let eligible1 := df.filter fun r =>
    (r.category == user_category) && (r.gender == user_gender) &&
      decide (user_rank ≤ r.cutoff_rank)
  let eligible2 := if user_region ≠ "NON-LOCAL"
    then eligible1.filter fun r => r.A_REG == user_region
    else eligible1
  if preferred_district ≠ "All"
    then eligible2.filter fun r => r.DIST == preferred_district
    else eligible2

/-- The surviving rows paired with their `rank_gap` column after the
`rank_gap <= 30000` realism filter (lines 38-42). -/
def gappedRows (df : List Row) (user_rank : ℤ)
    (user_category user_gender user_region preferred_district : String) :
    List (Row × ℤ) :=
  ((eligibleRows df user_rank user_category user_gender user_region
      preferred_district).map
    fun r => (r, r.cutoff_rank - user_rank)).filter
    fun p => decide (p.2 ≤ 30000)

/-- The rows annotated with the `Suitability %` and `Chance` columns
(lines 47-52). -/
def scoredRows (df : List Row) (user_rank : ℤ)
    (user_category user_gender user_region preferred_district : String) :
    List RecRow :=
  (gappedRows df user_rank user_category user_gender user_region
      preferred_district).map
    fun p =>
      { row := p.1
        rank_gap := p.2
        suitability := calculate_suitability user_rank p.1.cutoff_rank
        chance := classify_risk p.2 : RecRow }

/-- Embedding of `college_predictor.py`, `recommend_colleges(df, user_rank,
user_category, user_gender, user_region, preferred_district="All",
top_n=15)`.  DataFrame filters become list filters (order preserving),
column assignments become maps, the suitability-descending
`sort_values` becomes a stable insertion sort on `suitGE`, and
`.head(top_n)` becomes `take`; the two `.empty` early returns are the two
`isEmpty` tests. -/
def recommend_colleges (df : List Row) (user_rank : ℤ)
    (user_category user_gender user_region preferred_district : String)
    (top_n : ℕ) : List RecRow :=
  if (eligibleRows df user_rank user_category user_gender user_region
      preferred_district).isEmpty then []
  else if (gappedRows df user_rank user_category user_gender user_region
      preferred_district).isEmpty then []
  else
    (List.insertionSort suitGE
      (scoredRows df user_rank user_category user_gender user_region
        preferred_district)).take top_n

/-- The result record of `check_aspiration_college`: the Python dict
`{"cutoff": ..., "rank_gap": ...}`. -/
structure AspirationResult where
  cutoff : ℤ
  rank_gap : ℤ
deriving DecidableEq

/-- The row predicate of `check_aspiration_college`'s filter. -/
def aspirMatch (college_name branch_code user_category user_gender : String)
    (r : Row) : Bool :=
  (r.institution == college_name) && (r.branch_code == branch_code) &&
    (r.category == user_category) && (r.gender == user_gender)

/-- Embedding of `college_predictor.py`, `check_aspiration_college(df,
college_name, branch_code, user_rank, user_category, user_gender)`:
filter on exact institution/branch/category/gender match; `None` when the
filtered frame is empty, otherwise the first matching row's cutoff and its
(possibly negative) gap. -/
def check_aspiration_college (df : List Row) (college_name branch_code : String)
    (user_rank : ℤ) (user_category user_gender : String) :
    Option AspirationResult :=
  let check_df := df.filter
    (aspirMatch college_name branch_code user_category user_gender)
  match check_df with
  | [] => none
  | r :: _ => some ⟨r.cutoff_rank, r.cutoff_rank - user_rank⟩

/-- The one-row table of the spec's worked example. -/
def exampleRow : Row :=
  ⟨"X", "CSE", "D1", "AU", "OC", "F", 25000⟩

/-- The recommendation row produced from `exampleRow` for user rank 20000. -/
def exampleRec : RecRow :=
  ⟨exampleRow, 5000, 9292/100, "⚖️ Moderate"⟩

/-- First row of the tie-breaking counterexample table: rank gap 100 for a
user rank of 20000, suitability rounds to the clamped maximum 95. -/
def tieRowA : Row :=
  ⟨"A", "CSE", "D1", "AU", "OC", "F", 20100⟩

/-- Second row of the tie-breaking counterexample table: rank gap 50,
suitability also 95, so the two rows tie on suitability. -/
def tieRowB : Row :=
  ⟨"B", "CSE", "D1", "AU", "OC", "F", 20050⟩

/-- The scored row of `tieRowA` for user rank 20000. -/
def tieRecA : RecRow :=
  ⟨tieRowA, 100, 95, "🎯 Ambitious"⟩

/-- The scored row of `tieRowB` for user rank 20000. -/
def tieRecB : RecRow :=
  ⟨tieRowB, 50, 95, "🎯 Ambitious"⟩

/-! Arithmetic helper lemmas about rounding. -/

lemma intCast_le_round {m : ℤ} {q : ℚ} (h : (m : ℚ) ≤ q) : m ≤ round q := by
  rw [round_eq]
  exact Int.le_floor.2 (by push_cast; linarith)

lemma round_le_intCast {m : ℤ} {q : ℚ} (h : q ≤ (m : ℚ)) : round q ≤ m := by
  rw [round_eq]
  have hlt : (⌊q + 1 / 2⌋ : ℤ) < m + 1 := Int.floor_lt.2 (by push_cast; linarith)
  omega

lemma round_mono_q {x y : ℚ} (h : x ≤ y) : round x ≤ round y := by
  rw [round_eq, round_eq]
  exact Int.floor_le_floor (by linarith)

lemma roundTo2_ge {m : ℤ} {q : ℚ} (h : (m : ℚ) / 100 ≤ q) :
    (m : ℚ) / 100 ≤ roundTo2 q := by
  unfold roundTo2
  have h1 : (m : ℚ) ≤ q * 100 := by
    have := (div_le_iff (by norm_num : (0:ℚ) < 100)).1 h
    linarith
  have h2 : m ≤ round (q * 100) := intCast_le_round h1
  exact (div_le_div_right (by norm_num : (0:ℚ) < 100)).2 (by exact_mod_cast h2)

lemma roundTo2_le {m : ℤ} {q : ℚ} (h : q ≤ (m : ℚ) / 100) :
    roundTo2 q ≤ (m : ℚ) / 100 := by
  unfold roundTo2
  have h1 : q * 100 ≤ (m : ℚ) := by
    have := (le_div_iff (by norm_num : (0:ℚ) < 100)).1 h
    linarith
  have h2 : round (q * 100) ≤ m := round_le_intCast h1
  exact (div_le_div_right (by norm_num : (0:ℚ) < 100)).2 (by exact_mod_cast h2)

lemma roundTo2_le_roundTo2 {x y : ℚ} (h : x ≤ y) : roundTo2 x ≤ roundTo2 y := by
  unfold roundTo2
  have h1 : round (x * 100) ≤ round (y * 100) := round_mono_q (by linarith)
  exact (div_le_div_right (by norm_num : (0:ℚ) < 100)).2 (by exact_mod_cast h1)

/-! Membership lemmas for the recommendation pipeline. -/

/-- Unpacking membership in the first (category/gender/rank) filter of
`eligibleRows`. -/
lemma mem_eligible1 {df : List Row} {u : ℤ} {cat gen : String} {r : Row}
    (h : r ∈ df.filter fun s =>
      (s.category == cat) && (s.gender == gen) && decide (u ≤ s.cutoff_rank)) :
    r ∈ df ∧ r.category = cat ∧ r.gender = gen ∧ u ≤ r.cutoff_rank := by
  rw [List.mem_filter] at h
  simp only [Bool.and_eq_true, beq_iff_eq, decide_eq_true_eq] at h
  exact ⟨h.1, h.2.1.1, h.2.1.2, h.2.2⟩

/-- Unpacking membership in `eligibleRows`: the row is in the table and
passed the category, gender, rank, region and district filters. -/
lemma mem_eligibleRows {df : List Row} {u : ℤ} {cat gen reg dist : String}
    {r : Row} (h : r ∈ eligibleRows df u cat gen reg dist) :
    r ∈ df ∧ r.category = cat ∧ r.gender = gen ∧ u ≤ r.cutoff_rank ∧
      (reg ≠ "NON-LOCAL" → r.A_REG = reg) ∧
      (dist ≠ "All" → r.DIST = dist) := by
  simp only [eligibleRows] at h
  have main : r ∈ df.filter (fun s =>
        (s.category == cat) && (s.gender == gen) &&
          decide (u ≤ s.cutoff_rank)) ∧
      (reg ≠ "NON-LOCAL" → r.A_REG = reg) ∧
      (dist ≠ "All" → r.DIST = dist) := by
    by_cases hd : dist ≠ "All"
    · rw [if_pos hd, List.mem_filter] at h
      obtain ⟨h2, hD⟩ := h
      rw [beq_iff_eq] at hD
      by_cases hg : reg ≠ "NON-LOCAL"
      · rw [if_pos hg, List.mem_filter] at h2
        rw [beq_iff_eq] at h2
        exact ⟨h2.1, fun _ => h2.2, fun _ => hD⟩
      · rw [if_neg hg] at h2
        exact ⟨h2, fun hc => absurd hc hg, fun _ => hD⟩
    · rw [if_neg hd] at h
      by_cases hg : reg ≠ "NON-LOCAL"
      · rw [if_pos hg, List.mem_filter] at h
        rw [beq_iff_eq] at h
        exact ⟨h.1, fun _ => h.2, fun hc => absurd hc hd⟩
      · rw [if_neg hg] at h
        exact ⟨h, fun hc => absurd hc hg, fun hc => absurd hc hd⟩
  obtain ⟨hbase, hR, hD⟩ := main
  obtain ⟨hmem, hcat, hgen, hrank⟩ := mem_eligible1 hbase
  exact ⟨hmem, hcat, hgen, hrank, hR, hD⟩

/-- The recommendation output is a subset of `scoredRows`. -/
lemma recommend_subset_scored {df : List Row} {u : ℤ}
    {cat gen reg dist : String} {n : ℕ} {x : RecRow}
    (hx : x ∈ recommend_colleges df u cat gen reg dist n) :
    x ∈ scoredRows df u cat gen reg dist := by
  unfold recommend_colleges at hx
  split at hx
  · exact absurd hx (List.not_mem_nil x)
  split at hx
  · exact absurd hx (List.not_mem_nil x)
  have h1 := List.take_subset _ _ hx
  rwa [List.mem_insertionSort] at h1

/-- Every row of the recommendation output comes from a table row that
passed every filter, and carries exactly the computed gap, score and risk
columns. -/
lemma mem_recommend {df : List Row} {u : ℤ} {cat gen reg dist : String}
    {n : ℕ} {x : RecRow} (hx : x ∈ recommend_colleges df u cat gen reg dist n) :
    ∃ r ∈ df, r.category = cat ∧ r.gender = gen ∧ u ≤ r.cutoff_rank ∧
      (reg ≠ "NON-LOCAL" → r.A_REG = reg) ∧
      (dist ≠ "All" → r.DIST = dist) ∧
      r.cutoff_rank - u ≤ 30000 ∧
      x = ⟨r, r.cutoff_rank - u, calculate_suitability u r.cutoff_rank,
        classify_risk (r.cutoff_rank - u)⟩ := by
  have h1 := recommend_subset_scored hx
  simp only [scoredRows, gappedRows, List.mem_map, List.mem_filter,
    decide_eq_true_eq] at h1
  obtain ⟨p, ⟨⟨r, hr, rfl⟩, hple⟩, rfl⟩ := h1
  obtain ⟨hmem, hcat, hgen, hrank, hR, hD⟩ := mem_eligibleRows hr
  exact ⟨r, hmem, hcat, hgen, hrank, hR, hD, hple, rfl⟩

/-! Concrete evaluation lemmas for the example and counterexample tables.
ℚ arithmetic is evaluated by `norm_num`; string and integer steps by
`decide`. -/

lemma suit_gap5000 : calculate_suitability 20000 25000 = 9292/100 := by
  norm_num [calculate_suitability, max_gap, roundTo2, round_eq, min_def,
    max_def]

lemma suit_gap100 : calculate_suitability 20000 20100 = 95 := by
  norm_num [calculate_suitability, max_gap, roundTo2, round_eq, min_def,
    max_def]

lemma suit_gap50 : calculate_suitability 20000 20050 = 95 := by
  norm_num [calculate_suitability, max_gap, roundTo2, round_eq, min_def,
    max_def]

lemma gapped_example :
    gappedRows [exampleRow] 20000 "OC" "F" "AU" "D1" = [(exampleRow, 5000)] := by
  decide

lemma scored_example :
    scoredRows [exampleRow] 20000 "OC" "F" "AU" "D1" = [exampleRec] := by
  simp only [scoredRows, gapped_example, List.map_cons, List.map_nil]
  have hc : classify_risk 5000 = "⚖️ Moderate" := by decide
  simp only [exampleRec, suit_gap5000, hc, exampleRow]

lemma recommend_example_eval {n : ℕ} (hn : 0 < n) :
    recommend_colleges [exampleRow] 20000 "OC" "F" "AU" "D1" n =
      [exampleRec] := by
  have he : (eligibleRows [exampleRow] 20000 "OC" "F" "AU" "D1").isEmpty
      = false := by decide
  have hg : (gappedRows [exampleRow] 20000 "OC" "F" "AU" "D1").isEmpty
      = false := by decide
  unfold recommend_colleges
  rw [he, hg, scored_example]
  simp only [Bool.false_eq_true, if_false]
  rw [show List.insertionSort suitGE [exampleRec] = [exampleRec] from rfl]
  exact List.take_of_length_le (by simpa using hn)

lemma recommend_example_empty {n : ℕ} :
    recommend_colleges [exampleRow] 30000 "OC" "F" "AU" "D1" n = [] := by
  have he : (eligibleRows [exampleRow] 30000 "OC" "F" "AU" "D1").isEmpty
      = true := by decide
  unfold recommend_colleges
  rw [he]
  simp

lemma scored_tie :
    scoredRows [tieRowA, tieRowB] 20000 "OC" "F" "AU" "All" =
      [tieRecA, tieRecB] := by
  have hg : gappedRows [tieRowA, tieRowB] 20000 "OC" "F" "AU" "All" =
      [(tieRowA, 100), (tieRowB, 50)] := by decide
  simp only [scoredRows, hg, List.map_cons, List.map_nil]
  have hcA : classify_risk 100 = "🎯 Ambitious" := by decide
  have hcB : classify_risk 50 = "🎯 Ambitious" := by decide
  simp only [tieRecA, tieRecB, tieRowA, tieRowB, suit_gap100, suit_gap50,
    hcA, hcB]

lemma recommend_tie_eval :
    recommend_colleges [tieRowA, tieRowB] 20000 "OC" "F" "AU" "All" 15 =
      [tieRecA, tieRecB] := by
  have he : (eligibleRows [tieRowA, tieRowB] 20000 "OC" "F" "AU"
      "All").isEmpty = false := by decide
  have hg : (gappedRows [tieRowA, tieRowB] 20000 "OC" "F" "AU"
      "All").isEmpty = false := by decide
  unfold recommend_colleges
  rw [he, hg, scored_tie]
  simp only [Bool.false_eq_true, if_false]
  have hsort : List.insertionSort suitGE [tieRecA, tieRecB] =
      [tieRecA, tieRecB] := by
    simp only [List.insertionSort, List.orderedInsert]
    rw [if_pos]
    show tieRecB.suitability ≤ tieRecA.suitability
    simp [tieRecA, tieRecB]
  rw [hsort]
  rfl

/-! The claims. -/

/-- C1: every row of the recommendation output satisfies all hard
eligibility constraints: exact category and gender match, a cutoff
clearing the user's rank (equivalently a non-negative gap), a gap equal
to cutoff minus rank and at most 30000, a region match unless the region
is the "NON-LOCAL" sentinel, and a district match unless the district is
"All". -/
theorem C1_recommend_hard_constraints (df : List Row) (u : ℤ)
    (cat gen reg dist : String) (n : ℕ) (x : RecRow)
    (hx : x ∈ recommend_colleges df u cat gen reg dist n) :
    x.row.category = cat ∧ x.row.gender = gen ∧ u ≤ x.row.cutoff_rank ∧
    x.rank_gap = x.row.cutoff_rank - u ∧ 0 ≤ x.rank_gap ∧
    x.rank_gap ≤ 30000 ∧
    (reg ≠ "NON-LOCAL" → x.row.A_REG = reg) ∧
    (dist ≠ "All" → x.row.DIST = dist) := by
  obtain ⟨r, _, hcat, hgen, hrank, hR, hD, hgap, rfl⟩ := mem_recommend hx
  refine ⟨hcat, hgen, hrank, rfl, ?_, hgap, hR, hD⟩
  dsimp only
  omega

/-- Closed instance of `C1_recommend_hard_constraints`. -/
theorem C1_witness :
    exampleRec.row.category = "OC" ∧ exampleRec.row.gender = "F" ∧
    (20000 : ℤ) ≤ exampleRec.row.cutoff_rank ∧
    exampleRec.rank_gap = exampleRec.row.cutoff_rank - 20000 ∧
    (0 : ℤ) ≤ exampleRec.rank_gap ∧ exampleRec.rank_gap ≤ 30000 ∧
    ("AU" ≠ "NON-LOCAL" → exampleRec.row.A_REG = "AU") ∧
    ("D1" ≠ "All" → exampleRec.row.DIST = "D1") :=
  C1_recommend_hard_constraints [exampleRow] 20000 "OC" "F" "AU" "D1" 15
    exampleRec
    (by rw [recommend_example_eval (by norm_num : 0 < 15)]
        exact List.mem_singleton_self _)

/-- C2 (amended): the recommendation output is sorted so that every
adjacent pair has non-increasing suitability; no tie-break on `rank_gap`
is guaranteed (`sort_values` is called on the suitability column only). -/
theorem C2_recommend_sorted_by_suitability (df : List Row) (u : ℤ)
    (cat gen reg dist : String) (n : ℕ) :
    List.Chain' (fun a b => b.suitability ≤ a.suitability)
      (recommend_colleges df u cat gen reg dist n) := by
  unfold recommend_colleges
  split
  · exact List.chain'_nil
  split
  · exact List.chain'_nil
  have hs : List.Pairwise suitGE
      (List.insertionSort suitGE (scoredRows df u cat gen reg dist)) :=
    List.sorted_insertionSort suitGE _
  have ht : List.Pairwise suitGE
      ((List.insertionSort suitGE (scoredRows df u cat gen reg dist)).take n) :=
    hs.sublist (List.take_sublist n _)
  exact ht.chain'

/-- C2 as stated is false: on the table `[tieRowA, tieRowB]` both rows
score suitability 95, and the output keeps them in table order with rank
gap 100 before rank gap 50, violating the ascending-gap tie-break. -/
theorem C2_counterexample :
    ¬ List.Chain' (fun a b => b.suitability ≤ a.suitability ∧
        (a.suitability = b.suitability → a.rank_gap ≤ b.rank_gap))
      (recommend_colleges [tieRowA, tieRowB] 20000 "OC" "F" "AU" "All" 15) := by
  intro h
  rw [recommend_tie_eval, List.chain'_cons] at h
  have hgap := h.1.2 rfl
  have : ¬ (tieRecA.rank_gap ≤ tieRecB.rank_gap) := by decide
  exact this hgap

/-- C3: the recommendation output never exceeds the requested size, and
when no table row satisfies the combined category, gender, rank, region,
district and gap-ceiling constraints the output is the empty list (an
ordinary value of the total function, not an error). -/
theorem C3_recommend_length_le_and_empty (df : List Row) (u : ℤ)
    (cat gen reg dist : String) (n : ℕ) (hn : 0 < n) :
    (recommend_colleges df u cat gen reg dist n).length ≤ n ∧
    ((∀ r ∈ df, ¬(r.category = cat ∧ r.gender = gen ∧ u ≤ r.cutoff_rank ∧
        (reg ≠ "NON-LOCAL" → r.A_REG = reg) ∧
        (dist ≠ "All" → r.DIST = dist) ∧ r.cutoff_rank - u ≤ 30000)) →
      recommend_colleges df u cat gen reg dist n = []) := by
  constructor
  · unfold recommend_colleges
    split
    · simp
    split
    · simp
    rw [List.length_take]
    exact min_le_left _ _
  · intro hnone
    have hgap : gappedRows df u cat gen reg dist = [] := by
      rw [List.eq_nil_iff_forall_not_mem]
      intro p hp
      simp only [gappedRows, List.mem_filter, List.mem_map,
        decide_eq_true_eq] at hp
      obtain ⟨⟨r, hr, rfl⟩, hle⟩ := hp
      obtain ⟨hmem, hcat, hgen, hrank, hR, hD⟩ := mem_eligibleRows hr
      exact hnone r hmem ⟨hcat, hgen, hrank, hR, hD, hle⟩
    unfold recommend_colleges
    rw [hgap]
    simp

/-- Closed instance of `C3_recommend_length_le_and_empty`: the example
table with a rank that clears no cutoff yields the empty list. -/
theorem C3_witness :
    recommend_colleges [exampleRow] 30000 "OC" "F" "AU" "D1" 15 = [] :=
  (C3_recommend_length_le_and_empty [exampleRow] 30000 "OC" "F" "AU" "D1" 15
    (by decide)).2 (by decide)

/-- `check_aspiration_college` is the first matching row, packaged, when
one exists. -/
lemma check_aspiration_eq_find (df : List Row) (cn bc : String) (u : ℤ)
    (cat gen : String) :
    check_aspiration_college df cn bc u cat gen =
      (df.find? (aspirMatch cn bc cat gen)).map
        fun r => ⟨r.cutoff_rank, r.cutoff_rank - u⟩ := by
  induction df with
  | nil => rfl
  | cons a t ih =>
    simp only [check_aspiration_college, List.filter_cons, List.find?_cons]
      at ih ⊢
    cases h : aspirMatch cn bc cat gen a
    · simpa [h] using ih
    · simp [h]

/-- C4: the aspiration lookup returns the absent sentinel exactly when no
table row matches institution, branch, category and gender simultaneously;
otherwise it returns the first matching row's cutoff and the unclamped,
unscored gap `cutoff - user_rank`. -/
theorem C4_check_aspiration_absent_or_first (df : List Row)
    (cn bc : String) (u : ℤ) (cat gen : String) :
    (check_aspiration_college df cn bc u cat gen = none ↔
      ∀ r ∈ df, ¬(r.institution = cn ∧ r.branch_code = bc ∧
        r.category = cat ∧ r.gender = gen)) ∧
    (∀ r : Row, df.find? (aspirMatch cn bc cat gen) = some r →
      check_aspiration_college df cn bc u cat gen =
        some ⟨r.cutoff_rank, r.cutoff_rank - u⟩) := by
  have hiff : ∀ r : Row, aspirMatch cn bc cat gen r = true ↔
      (r.institution = cn ∧ r.branch_code = bc ∧
        r.category = cat ∧ r.gender = gen) := by
    intro r
    simp [aspirMatch, Bool.and_eq_true, beq_iff_eq, and_assoc]
  constructor
  · rw [check_aspiration_eq_find, Option.map_eq_none', List.find?_eq_none]
    exact ⟨fun h r hr hc => h r hr ((hiff r).2 hc),
      fun h r hr hb => h r hr ((hiff r).1 hb)⟩
  · intro r hr
    rw [check_aspiration_eq_find, hr, Option.map_some']

/-- Closed instance of `C4_check_aspiration_absent_or_first`: the spec's
example, where the user's rank 26000 is worse than the cutoff 25000 and a
negative gap of -1000 is returned as an ordinary value. -/
theorem C4_witness :
    check_aspiration_college [exampleRow] "X" "CSE" 26000 "OC" "F" =
      some ⟨25000, -1000⟩ :=
  (C4_check_aspiration_absent_or_first [exampleRow] "X" "CSE" 26000 "OC"
    "F").2 exampleRow (by decide)

/-- C5: for positive ranks with `cutoff_rank < user_rank`,
`calculate_suitability` returns exactly the sentinel `0.0`. -/
theorem C5_suitability_zero_when_cutoff_below_rank (user_rank cutoff_rank : ℤ)
    (hu : 0 < user_rank) (hc : 0 < cutoff_rank) (h : cutoff_rank < user_rank) :
    calculate_suitability user_rank cutoff_rank = 0 := by
  simp only [calculate_suitability]
  rw [if_pos (by omega : cutoff_rank - user_rank < 0)]

/-- Closed instance of `C5_suitability_zero_when_cutoff_below_rank`. -/
theorem C5_witness : calculate_suitability 30000 25000 = 0 :=
  C5_suitability_zero_when_cutoff_below_rank 30000 25000 (by decide) (by decide)
    (by decide)

/-- C6: for positive ranks with `cutoff_rank ≥ user_rank`, the suitability
score lies in `[5, 95]` and equals the clamped, 2-decimal-rounded linear
score of the capped gap ratio. -/
theorem C6_suitability_bounds (user_rank cutoff_rank : ℤ)
    (hu : 0 < user_rank) (hc : 0 < cutoff_rank) (h : user_rank ≤ cutoff_rank) :
    5 ≤ calculate_suitability user_rank cutoff_rank ∧
    calculate_suitability user_rank cutoff_rank ≤ 95 ∧
    calculate_suitability user_rank cutoff_rank =
      roundTo2 (min (max
        (85 * (1 - min (((cutoff_rank - user_rank : ℤ) : ℚ) / 60000) 1) + 15) 5)
        95) := by
  simp only [calculate_suitability, max_gap]
  rw [if_neg (by omega : ¬ cutoff_rank - user_rank < 0)]
  refine ⟨?_, ?_, rfl⟩
  · have h5 : (5 : ℚ) = (500 : ℤ) / 100 := by norm_num
    rw [h5]
    exact roundTo2_ge (by
      push_cast
      exact le_trans (by norm_num)
        (min_le_min (le_max_right _ _) (by norm_num : (5:ℚ) ≤ 95)) |>.trans
        (le_of_eq rfl))
  · have h95 : (95 : ℚ) = (9500 : ℤ) / 100 := by norm_num
    rw [h95]
    exact roundTo2_le (by push_cast; exact le_trans (min_le_right _ _) (by norm_num))

/-- Closed instance of `C6_suitability_bounds`. -/
theorem C6_witness :
    5 ≤ calculate_suitability 20000 25000 ∧
    calculate_suitability 20000 25000 ≤ 95 ∧
    calculate_suitability 20000 25000 =
      roundTo2 (min (max
        (85 * (1 - min (((25000 - 20000 : ℤ) : ℚ) / 60000) 1) + 15) 5) 95) :=
  C6_suitability_bounds 20000 25000 (by decide) (by decide) (by decide)

/-- C7: for a fixed `user_rank`, the suitability score is non-increasing in
the (non-negative) rank gap. -/
theorem C7_suitability_antitone_in_gap (user_rank g1 g2 : ℤ)
    (h0 : 0 ≤ g1) (h12 : g1 < g2) :
    calculate_suitability user_rank (user_rank + g2) ≤
      calculate_suitability user_rank (user_rank + g1) := by
  simp only [calculate_suitability, max_gap, add_sub_cancel_left]
  rw [if_neg (by omega : ¬ g1 < 0), if_neg (by omega : ¬ g2 < 0)]
  apply roundTo2_le_roundTo2
  have hg : (g1 : ℚ) ≤ (g2 : ℚ) := by exact_mod_cast h12.le
  gcongr

/-- Closed instance of `C7_suitability_antitone_in_gap`. -/
theorem C7_witness :
    calculate_suitability 20000 (20000 + 5000) ≤
      calculate_suitability 20000 (20000 + 1000) :=
  C7_suitability_antitone_in_gap 20000 1000 5000 (by decide) (by decide)

/-- C8: `classify_risk` maps gaps at most 2000 to the Ambitious label, gaps
in `(2000, 10000]` to the Moderate label, and gaps above 10000 to the Safe
label; in particular at 0, 2000, 2001, 10000 and 10001. -/
theorem C8_classify_risk_thresholds :
    (∀ g : ℤ,
      (g ≤ 2000 → classify_risk g = "🎯 Ambitious") ∧
      (2000 < g → g ≤ 10000 → classify_risk g = "⚖️ Moderate") ∧
      (10000 < g → classify_risk g = "✅ Safe")) ∧
    classify_risk 0 = "🎯 Ambitious" ∧
    classify_risk 2000 = "🎯 Ambitious" ∧
    classify_risk 2001 = "⚖️ Moderate" ∧
    classify_risk 10000 = "⚖️ Moderate" ∧
    classify_risk 10001 = "✅ Safe" := by
  refine ⟨fun g => ⟨fun h1 => ?_, fun h2 h3 => ?_, fun h4 => ?_⟩,
    by decide, by decide, by decide, by decide, by decide⟩
  · simp only [classify_risk]
    rw [if_pos h1]
  · simp only [classify_risk]
    rw [if_neg (by omega), if_pos h3]
  · simp only [classify_risk]
    rw [if_neg (by omega), if_neg (by omega)]

/-- Closed instance of `C8_classify_risk_thresholds`. -/
theorem C8_witness : classify_risk 1500 = "🎯 Ambitious" :=
  (C8_classify_risk_thresholds.1 1500).1 (by decide)

/-- C9: on the spec's one-row example table, a user rank of 20000 returns
exactly that row annotated with gap 5000, suitability 92.92 and the
Moderate risk label, for every positive limit; a user rank of 30000
returns the empty list. -/
theorem C9_example_recommendation (n : ℕ) (hn : 0 < n) :
    recommend_colleges [exampleRow] 20000 "OC" "F" "AU" "D1" n =
      [⟨exampleRow, 5000, 9292/100, "⚖️ Moderate"⟩] ∧
    recommend_colleges [exampleRow] 30000 "OC" "F" "AU" "D1" n = [] :=
  ⟨recommend_example_eval hn, recommend_example_empty⟩

/-- Closed instance of `C9_example_recommendation` at limit 15. -/
theorem C9_witness :
    recommend_colleges [exampleRow] 20000 "OC" "F" "AU" "D1" 15 =
      [⟨exampleRow, 5000, 9292/100, "⚖️ Moderate"⟩] ∧
    recommend_colleges [exampleRow] 30000 "OC" "F" "AU" "D1" 15 = [] :=
  C9_example_recommendation 15 (by decide)

/-- The clamped, rounded score of any gap between 0 and 30000 is at least
57.5. -/
lemma suitability_ge_of_gap_le_30000 {u c : ℤ} (h0 : u ≤ c)
    (h30 : c - u ≤ 30000) : (115/2 : ℚ) ≤ calculate_suitability u c := by
  simp only [calculate_suitability, max_gap]
  rw [if_neg (by omega : ¬ c - u < 0)]
  have hcast : ((c - u : ℤ) : ℚ) ≤ 30000 := by exact_mod_cast h30
  have h1 : ((c - u : ℤ) : ℚ) / 60000 ≤ 1/2 := by linarith
  have hfrac : min (((c - u : ℤ) : ℚ) / 60000) 1 ≤ 1/2 :=
    le_trans (min_le_left _ _) h1
  have hsuit : (115/2 : ℚ) ≤
      85 * (1 - min (((c - u : ℤ) : ℚ) / 60000) 1) + 15 := by linarith
  have hclamp : (115/2 : ℚ) ≤
      min (max (85 * (1 - min (((c - u : ℤ) : ℚ) / 60000) 1) + 15) 5) 95 :=
    le_min (le_trans hsuit (le_max_left _ _)) (by norm_num)
  calc (115/2 : ℚ) = ((5750 : ℤ) : ℚ) / 100 := by norm_num
  _ ≤ _ := roundTo2_ge (by
      calc ((5750 : ℤ) : ℚ) / 100 = 115/2 := by norm_num
      _ ≤ _ := hclamp)

/-- C10: every recommendation row carries a suitability score of at least
57.5, so the scorer's lower clamp at 5 is unreachable in recommendation
output. -/
theorem C10_recommend_score_floor (df : List Row) (u : ℤ)
    (cat gen reg dist : String) (n : ℕ) (x : RecRow)
    (hx : x ∈ recommend_colleges df u cat gen reg dist n) :
    (115/2 : ℚ) ≤ x.suitability := by
  obtain ⟨r, _, _, _, hrank, _, _, hgap, rfl⟩ := mem_recommend hx
  exact suitability_ge_of_gap_le_30000 hrank hgap

/-- Closed instance of `C10_recommend_score_floor`. -/
theorem C10_witness : (115/2 : ℚ) ≤ exampleRec.suitability :=
  C10_recommend_score_floor [exampleRow] 20000 "OC" "F" "AU" "D1" 15
    exampleRec
    (by rw [recommend_example_eval (by norm_num : 0 < 15)]
        exact List.mem_singleton_self _)
